import Mathlib

/-!
Shallow embedding of the Coffee Corner LINE RAG chatbot
(`src/app.py`, `src/config.py`).

The pipeline `SimpleRAGBot.process_message` talks to two external
services: the vector index (embedding + `index.query`, which may raise)
and the OpenRouter chat-completion HTTP endpoint (which may raise, return
a non-200 status, or return a 200 body whose JSON extraction raises).
Both are modelled as components of an environment record.  Stateful
environments (`SEnv σ`) thread an abstract state through every external
call, so that call counting (claim C2) and determinism under fixed-output
doubles (claim C9) are expressible; the plain pure pipeline is the `Unit`
instantiation.
-/

/-- A Python exception, abstracted to its message. -/
structure PyError where
  msg : String
deriving DecidableEq

/-- Metadata dictionary of one Pinecone match: `match['metadata']` may lack
the `title` / `content` keys, hence `Option` (`dict.get` with default). -/
structure MatchMeta where
  title? : Option String
  content? : Option String
deriving DecidableEq

/-- One entry of `results['matches']` returned by `index.query`. -/
structure PMatch where
  metadata : MatchMeta
  score : Rat
deriving DecidableEq

/-- The document dict built by `search_knowledge` from one match
(`app.py` lines 47-52): missing metadata keys default to `''`. -/
structure Doc where
  title : String
  content : String
  score : Rat
deriving DecidableEq

def docOfMatch (m : PMatch) : Doc :=
  { title := m.metadata.title?.getD ""
    content := m.metadata.content?.getD ""
    score := m.score }

/-- Outcome of the `requests.post` call in `_call_openrouter`:
either a response with a status code and the attempted extraction of
`result['choices'][0]['message']['content']` (`none` when the JSON
access raises), or a transport/timeout exception. -/
inductive LLMHttp where
  | resp (status : Nat) (content? : Option String)
  | exn (e : PyError)
deriving DecidableEq

/-- Stateful environment of external services.  `query` is the composition
of `embedder.encode` and `index.query` (keyed by the raw message, since the
encoder is deterministic); it may raise.  `llm` is the OpenRouter HTTP call
made by `_call_openrouter`.  Each call consumes and produces a state. -/
structure SEnv (σ : Type) where
  query : σ → String → Except PyError (List PMatch) × σ
  llm : σ → String → LLMHttp × σ

/-- `SimpleRAGBot.search_knowledge` (`app.py` lines 37-54): embed the query,
query the index, and project each match to a document dict. -/
def search_knowledgeS {σ : Type} (env : SEnv σ) (s : σ) (query : String) :
    Except PyError (List Doc) × σ :=
  ((env.query s query).1.map (List.map docOfMatch), (env.query s query).2)

/-- Fallback returned by `_call_openrouter` on a non-200 status
(`app.py` line 103). -/
def serverErrorFallback : String := "ขออภัยค่ะ ระบบมีปัญหา กรุณาลองใหม่ค่ะ 🙏"

/-- Fallback returned by `_call_openrouter` when the request (or the JSON
extraction) raises (`app.py` line 107). -/
def llmErrorFallback : String := "ขออภัยค่ะ ไม่สามารถตอบได้ กรุณาติดต่อร้านค่ะ 📞"

/-- Fallback substituted by `process_message` when the generated answer is
blank after stripping (`app.py` line 122); textually identical to
`llmErrorFallback`. -/
def emptyGenerationFallback : String := "ขออภัยค่ะ ไม่สามารถตอบได้ กรุณาติดต่อร้านค่ะ 📞"

/-- Python `str.strip()`: drop whitespace from both ends of the string. -/
def pyStrip (s : String) : String :=
  ⟨((s.data.dropWhile Char.isWhitespace).reverse.dropWhile Char.isWhitespace).reverse⟩

/-- The pure core of `_call_openrouter` (`app.py` lines 98-107), given the
HTTP outcome: 200 with extractable content yields the stripped content, a
failed extraction or a raised exception yields `llmErrorFallback`, any
other status yields `serverErrorFallback`. -/
def interpretLLM : LLMHttp → String
  | .resp status content? =>
      if status = 200 then
        match content? with
        | some content => pyStrip content
        | none => llmErrorFallback
      else serverErrorFallback
  | .exn _ => llmErrorFallback

/-- `SimpleRAGBot._call_openrouter` over a stateful environment. -/
def call_openrouterS {σ : Type} (env : SEnv σ) (s : σ) (prompt : String) :
    String × σ :=
  (interpretLLM (env.llm s prompt).1, (env.llm s prompt).2)

/-- The context block built by `generate_response` (`app.py` lines 59-62). -/
def contextOf (docs : List Doc) : String :=
  String.intercalate "\n" (docs.map (fun d => "📄 " ++ d.title ++ ": " ++ d.content))

/-- The prompt template of `generate_response` (`app.py` lines 63-76). -/
def mkPrompt (query : String) (docs : List Doc) : String :=
  "คุณคือผู้ช่วยของร้านกาแฟ \"Coffee Corner\" 🏪\n\nกฎการตอบ:\n- ตอบเป็นภาษาไทยและใส่อีโมจิ\n- ใช้ข้อมูลที่ให้มาเท่านั้น\n- ตอบสั้น เหมาะสำหรับ LINE chat\n- ใส่ราคาชัดเจน\n- ไม่ตอบเป็น markdown format\n\nข้อมูลร้าน:\n"
    ++ contextOf docs ++ "\n\nคำถาม: " ++ query ++ "\nตอบ:"

/-- `SimpleRAGBot.generate_response` (`app.py` lines 56-78). -/
def generate_responseS {σ : Type} (env : SEnv σ) (s : σ) (query : String)
    (docs : List Doc) : String × σ :=
  call_openrouterS env s (mkPrompt query docs)

/-- The dict returned by `process_message`: a reply text, a quick-reply
list, and an optional `sources` key (`none` when the dict has no such
key, as in both fallback branches). -/
structure RagReply where
  reply : String
  quick_replies : List String
  sources : Option (List String)
deriving DecidableEq

/-- The NO_KNOWLEDGE reply (`app.py` lines 115-118). -/
def noKnowledgeReply : RagReply :=
  { reply := "ขออภัยค่ะ ไม่พบข้อมูล กรุณาติดต่อร้าน LINE @coffeecorner ค่ะ 📞"
    quick_replies := ["☕ เมนูเครื่องดื่ม", "🕐 เวลาเปิด-ปิด"]
    sources := none }

/-- The PIPELINE_ERROR reply produced by the `except` clause of
`process_message` (`app.py` lines 132-135). -/
def pipelineErrorReply : RagReply :=
  { reply := "ขออภัยค่ะ เกิดข้อผิดพลาด กรุณาลองใหม่ค่ะ 🙏"
    quick_replies := ["☕ เมนู", "📞 ติดต่อร้าน"]
    sources := none }

/-- The quick-reply menu of the successful branch (`app.py` line 126). -/
def successQuickReplies : List String :=
  ["☕ เมนูเครื่องดื่ม", "🍕 เมนูอาหาร", "🕐 เวลาเปิด-ปิด", "📍 ที่อยู่"]

/-- `SimpleRAGBot.process_message` (`app.py` lines 109-135) over a stateful
environment.  The `try` block covers retrieval (the only step whose model
can signal an exception: `_call_openrouter` catches its own), so a
retrieval error lands in the PIPELINE_ERROR branch; an empty document
list short-circuits to NO_KNOWLEDGE without touching the generator. -/
def process_messageS {σ : Type} (env : SEnv σ) (s : σ) (user_message : String) :
    RagReply × σ :=
  match (search_knowledgeS env s user_message).1 with
  | .error _ => (pipelineErrorReply, (search_knowledgeS env s user_message).2)
  | .ok documents =>
      if documents.isEmpty then
        (noKnowledgeReply, (search_knowledgeS env s user_message).2)
      else
        let g := generate_responseS env (search_knowledgeS env s user_message).2
          user_message documents
        let answer := if pyStrip g.1 = "" then emptyGenerationFallback else g.1
        ({ reply := answer
           quick_replies := successQuickReplies
           sources := some ((documents.take 2).map Doc.title) }, g.2)

/-- Stateless environment: the two external services as plain functions. -/
structure Env where
  query : String → Except PyError (List PMatch)
  llm : String → LLMHttp

/-- Lift a stateless environment to a (trivially) stateful one. -/
def Env.toS (env : Env) : SEnv Unit :=
  { query := fun s q => (env.query q, s)
    llm := fun s p => (env.llm p, s) }

/-- `SimpleRAGBot.process_message` with stateless services. -/
def process_message (env : Env) (user_message : String) : RagReply :=
  (process_messageS env.toS () user_message).1

/-- Instrumented environment: the state counts how many times the
OpenRouter endpoint (the response generator) has been invoked. -/
def countingEnv (env : Env) : SEnv Nat :=
  { query := fun n q => (env.query q, n)
    llm := fun n p => (env.llm p, n + 1) }

/-- A reply dict is well formed when its text and quick-reply menu are
both non-empty. -/
def WellFormedReply (r : RagReply) : Prop :=
  r.reply ≠ "" ∧ r.quick_replies ≠ []

/-- Retrieval raised: `process_message` lands in the `except` clause. -/
theorem process_message_of_error (env : Env) (msg : String) (e : PyError)
    (h : env.query msg = .error e) :
    process_message env msg = pipelineErrorReply := by
  simp [process_message, process_messageS, search_knowledgeS, Env.toS, h, Except.map]

/-- Retrieval returned no matches: `process_message` returns the
NO_KNOWLEDGE reply. -/
theorem process_message_of_empty (env : Env) (msg : String)
    (h : env.query msg = .ok []) :
    process_message env msg = noKnowledgeReply := by
  simp [process_message, process_messageS, search_knowledgeS, Env.toS, h, Except.map]

/-- Retrieval returned at least one match: `process_message` takes the
generation path. -/
theorem process_message_of_docs (env : Env) (msg : String) (ms : List PMatch)
    (h : env.query msg = .ok ms) (hne : ms ≠ []) :
    process_message env msg =
      { reply :=
          if pyStrip (interpretLLM (env.llm (mkPrompt msg (ms.map docOfMatch)))) = ""
          then emptyGenerationFallback
          else interpretLLM (env.llm (mkPrompt msg (ms.map docOfMatch)))
        quick_replies := successQuickReplies
        sources := some (((ms.map docOfMatch).take 2).map Doc.title) } := by
  have hne' : (ms.map docOfMatch).isEmpty = false := by
    cases ms with
    | nil => exact absurd rfl hne
    | cons a l => rfl
  simp [process_message, process_messageS, search_knowledgeS, Env.toS, h, Except.map,
    hne', generate_responseS, call_openrouterS]

/-- A string whose strip is non-blank is itself non-empty. -/
theorem ne_empty_of_pyStrip_ne (s : String) (h : pyStrip s ≠ "") : s ≠ "" := by
  intro he
  subst he
  exact h rfl

/-- A retrieved match about a latte, used by the concrete environments. -/
def matchLatte : PMatch :=
  { metadata := { title? := some "เมนูลาเต้", content? := some "ลาเต้ร้อน 45 บาท" }
    score := 1 }

/-- A second retrieved match, used to exercise source truncation. -/
def matchGreenTea : PMatch :=
  { metadata := { title? := some "เมนูชาเขียว", content? := some "ชาเขียว 50 บาท" }
    score := 1 }

/-- A third retrieved match, used to exercise source truncation. -/
def matchMocha : PMatch :=
  { metadata := { title? := some "เมนูมอคค่า", content? := some "มอคค่า 55 บาท" }
    score := 1 }

/-- Environment whose index query raises a network error. -/
def envNetFail : Env :=
  { query := fun _ => .error ⟨"ConnectionError"⟩
    llm := fun _ => .resp 200 (some "คำตอบ") }

/-- Environment with a healthy index and generator. -/
def envHealthy : Env :=
  { query := fun _ => .ok [matchLatte, matchGreenTea, matchMocha]
    llm := fun _ => .resp 200 (some " ลาเต้ร้อนราคา 45 บาทค่ะ ☕ ") }

/-- Environment whose index query finds nothing. -/
def envNoDocs : Env :=
  { query := fun _ => .ok []
    llm := fun _ => .resp 200 (some "คำตอบ") }

/-- Environment whose generation call raises (e.g. a timeout). -/
def envLLMTimeout : Env :=
  { query := fun _ => .ok [matchLatte]
    llm := fun _ => .exn ⟨"requests.exceptions.Timeout"⟩ }

/-- Environment whose generation call returns HTTP 500. -/
def envLLM500 : Env :=
  { query := fun _ => .ok [matchLatte]
    llm := fun _ => .resp 500 none }

/-- Environment whose generator returns a whitespace-only completion. -/
def envBlankGen : Env :=
  { query := fun _ => .ok [matchLatte]
    llm := fun _ => .resp 200 (some "   ") }

/-- Reply text of the generation path. -/
theorem reply_of_docs (env : Env) (msg : String) (ms : List PMatch)
    (h : env.query msg = .ok ms) (hne : ms ≠ []) :
    (process_message env msg).reply =
      if pyStrip (interpretLLM (env.llm (mkPrompt msg (ms.map docOfMatch)))) = ""
      then emptyGenerationFallback
      else interpretLLM (env.llm (mkPrompt msg (ms.map docOfMatch))) := by
  rw [process_message_of_docs env msg ms h hne]

/-- Sources of the generation path. -/
theorem sources_of_docs (env : Env) (msg : String) (ms : List PMatch)
    (h : env.query msg = .ok ms) (hne : ms ≠ []) :
    (process_message env msg).sources =
      some (((ms.map docOfMatch).take 2).map Doc.title) := by
  rw [process_message_of_docs env msg ms h hne]

/-- The reply text of `process_message` is non-empty in every branch. -/
theorem process_reply_ne_empty (env : Env) (msg : String) :
    (process_message env msg).reply ≠ "" := by
  cases h : env.query msg with
  | error e =>
      rw [process_message_of_error env msg e h]
      decide
  | ok ms =>
      cases ms with
      | nil =>
          rw [process_message_of_empty env msg h]
          decide
      | cons a l =>
          rw [reply_of_docs env msg (a :: l) h (by simp)]
          by_cases hb :
            pyStrip (interpretLLM (env.llm (mkPrompt msg ((a :: l).map docOfMatch)))) = ""
          · rw [if_pos hb]
            decide
          · rw [if_neg hb]
            exact ne_empty_of_pyStrip_ne _ hb

/-- The quick-reply menu of `process_message` is non-empty in every
branch. -/
theorem process_quick_ne_nil (env : Env) (msg : String) :
    (process_message env msg).quick_replies ≠ [] := by
  cases h : env.query msg with
  | error e =>
      rw [process_message_of_error env msg e h]
      decide
  | ok ms =>
      cases ms with
      | nil =>
          rw [process_message_of_empty env msg h]
          decide
      | cons a l =>
          rw [process_message_of_docs env msg (a :: l) h (by simp)]
          show successQuickReplies ≠ []
          decide

/-- C1: `process_message` never raises to its caller and always returns a
well-formed reply (non-empty text, non-empty quick-reply menu); an
exception escaping the retrieve step — the only step whose errors reach
the pipeline boundary — is converted into the fixed PIPELINE_ERROR
reply. -/
theorem process_message_total (env : Env) (msg : String) :
    WellFormedReply (process_message env msg) ∧
    (∀ e, env.query msg = .error e → process_message env msg = pipelineErrorReply) :=
  ⟨⟨process_reply_ne_empty env msg, process_quick_ne_nil env msg⟩,
   fun e he => process_message_of_error env msg e he⟩

/-- Witness for C1 at a concrete failing environment. -/
theorem process_message_total_witness :
    WellFormedReply (process_message envNetFail "ราคาลาเต้เท่าไร?") ∧
    process_message envNetFail "ราคาลาเต้เท่าไร?" = pipelineErrorReply :=
  ⟨(process_message_total envNetFail "ราคาลาเต้เท่าไร?").1,
   (process_message_total envNetFail "ราคาลาเต้เท่าไร?").2 ⟨"ConnectionError"⟩ rfl⟩

/-- C2: empty retrieval yields exactly the fixed NO_KNOWLEDGE reply with a
2-entry quick-reply menu, and the response generator is never invoked
(the instrumented run performs zero LLM calls). -/
theorem empty_retrieval_no_generation (env : Env) (msg : String)
    (h : env.query msg = .ok []) :
    process_message env msg = noKnowledgeReply ∧
    (process_message env msg).reply =
      "ขออภัยค่ะ ไม่พบข้อมูล กรุณาติดต่อร้าน LINE @coffeecorner ค่ะ 📞" ∧
    (process_message env msg).quick_replies.length = 2 ∧
    (process_messageS (countingEnv env) 0 msg).2 = 0 := by
  have h1 := process_message_of_empty env msg h
  refine ⟨h1, by rw [h1]; rfl, by rw [h1]; rfl, ?_⟩
  simp [process_messageS, search_knowledgeS, countingEnv, h, Except.map]

/-- Witness for C2 at a concrete empty-index environment. -/
theorem empty_retrieval_no_generation_witness :
    process_message envNoDocs "มีที่จอดรถไหม?" = noKnowledgeReply ∧
    (process_message envNoDocs "มีที่จอดรถไหม?").reply =
      "ขออภัยค่ะ ไม่พบข้อมูล กรุณาติดต่อร้าน LINE @coffeecorner ค่ะ 📞" ∧
    (process_message envNoDocs "มีที่จอดรถไหม?").quick_replies.length = 2 ∧
    (process_messageS (countingEnv envNoDocs) 0 "มีที่จอดรถไหม?").2 = 0 :=
  empty_retrieval_no_generation envNoDocs "มีที่จอดรถไหม?" rfl

/-- C3 counterexample: when the index query raises, `process_message`
returns the PIPELINE_ERROR reply, which differs from the NO_KNOWLEDGE
fallback the claim promises. -/
theorem retrieval_error_not_no_knowledge :
    process_message envNetFail "ร้านเปิดกี่โมง?" = pipelineErrorReply ∧
    process_message envNetFail "ร้านเปิดกี่โมง?" ≠ noKnowledgeReply ∧
    pipelineErrorReply.reply ≠ noKnowledgeReply.reply := by
  have h1 := process_message_of_error envNetFail "ร้านเปิดกี่โมง?" ⟨"ConnectionError"⟩ rfl
  exact ⟨h1, by rw [h1]; decide, by decide⟩

/-- C3 amended: a retrieval error is caught at the pipeline boundary and
converted into the PIPELINE_ERROR reply, not the NO_KNOWLEDGE reply. -/
theorem retrieval_error_pipeline_fallback (env : Env) (msg : String) (e : PyError)
    (h : env.query msg = .error e) :
    process_message env msg = pipelineErrorReply ∧
    process_message env msg ≠ noKnowledgeReply := by
  have h1 := process_message_of_error env msg e h
  exact ⟨h1, by rw [h1]; decide⟩

/-- Witness for the amended C3 at a concrete failing index. -/
theorem retrieval_error_pipeline_fallback_witness :
    process_message envNetFail "สวัสดีครับ" = pipelineErrorReply ∧
    process_message envNetFail "สวัสดีครับ" ≠ noKnowledgeReply :=
  retrieval_error_pipeline_fallback envNetFail "สวัสดีครับ" ⟨"ConnectionError"⟩ rfl

/-- C4 counterexample: a non-200 completion response produces the reply
"ขออภัยค่ะ ระบบมีปัญหา กรุณาลองใหม่ค่ะ 🙏" — a fourth fixed template,
distinct from the three apology templates the claim allows. -/
theorem fourth_template_counterexample :
    (process_message envLLM500 "ราคาลาเต้เท่าไร?").reply = serverErrorFallback ∧
    serverErrorFallback ≠ noKnowledgeReply.reply ∧
    serverErrorFallback ≠ llmErrorFallback ∧
    serverErrorFallback ≠ pipelineErrorReply.reply := by
  have h1 := reply_of_docs envLLM500 "ราคาลาเต้เท่าไร?" [matchLatte] rfl (by simp)
  refine ⟨?_, by decide, by decide, by decide⟩
  rw [h1]
  decide

/-- C4 amended: every user-visible reply text is either the stripped
generated completion or one of exactly four fixed Thai apology templates
(NO_KNOWLEDGE, server-error, generation-error — shared with empty
generation — and PIPELINE_ERROR). -/
theorem reply_generated_or_template (env : Env) (msg : String) :
    (∃ ms c, env.query msg = .ok ms ∧ ms ≠ [] ∧
       env.llm (mkPrompt msg (ms.map docOfMatch)) = .resp 200 (some c) ∧
       (process_message env msg).reply = pyStrip c) ∨
    (process_message env msg).reply ∈
      [noKnowledgeReply.reply, serverErrorFallback, llmErrorFallback,
       pipelineErrorReply.reply] := by
  cases h : env.query msg with
  | error e =>
      right
      rw [process_message_of_error env msg e h]
      decide
  | ok ms =>
      cases ms with
      | nil =>
          right
          rw [process_message_of_empty env msg h]
          decide
      | cons a l =>
          have h1 := reply_of_docs env msg (a :: l) h (by simp)
          cases hl : env.llm (mkPrompt msg ((a :: l).map docOfMatch)) with
          | exn e =>
              right
              rw [h1, hl]
              simp only [interpretLLM]
              decide
          | resp status c? =>
              by_cases hst : status = 200
              · cases c? with
                | none =>
                    right
                    rw [h1, hl]
                    simp only [interpretLLM, hst, if_true]
                    decide
                | some c =>
                    by_cases hb : pyStrip (pyStrip c) = ""
                    · right
                      rw [h1, hl]
                      simp only [interpretLLM, hst, if_true, hb, if_pos]
                      decide
                    · left
                      refine ⟨a :: l, c, rfl, by simp, by rw [hl, hst], ?_⟩
                      rw [h1, hl]
                      simp only [interpretLLM, hst, if_true]
                      rw [if_neg hb]
              · right
                rw [h1, hl]
                simp only [interpretLLM, hst, if_false]
                decide

/-- C5: when the generation call raises/times out or returns a non-2xx
status, the error does not propagate: the reply text is one of the
pre-defined fallback apology strings and `sources` is still populated
from the successful retrieval. -/
theorem generation_failure_keeps_sources (env : Env) (msg : String) (ms : List PMatch)
    (hq : env.query msg = .ok ms) (hne : ms ≠ [])
    (hl : (∃ e, env.llm (mkPrompt msg (ms.map docOfMatch)) = .exn e) ∨
          (∃ st c?, env.llm (mkPrompt msg (ms.map docOfMatch)) = .resp st c? ∧ st ≠ 200)) :
    ((process_message env msg).reply = llmErrorFallback ∨
     (process_message env msg).reply = serverErrorFallback) ∧
    (process_message env msg).sources =
      some (((ms.map docOfMatch).take 2).map Doc.title) := by
  refine ⟨?_, sources_of_docs env msg ms hq hne⟩
  have h1 := reply_of_docs env msg ms hq hne
  rcases hl with ⟨e, he⟩ | ⟨st, c?, hr, hst⟩
  · left
    rw [h1, he]
    simp only [interpretLLM]
    decide
  · right
    rw [h1, hr]
    simp only [interpretLLM]
    rw [if_neg hst]
    decide

/-- Witness for C5 at a concrete timing-out generator. -/
theorem generation_failure_keeps_sources_witness :
    ((process_message envLLMTimeout "ราคาลาเต้เท่าไร?").reply = llmErrorFallback ∨
     (process_message envLLMTimeout "ราคาลาเต้เท่าไร?").reply = serverErrorFallback) ∧
    (process_message envLLMTimeout "ราคาลาเต้เท่าไร?").sources =
      some ((([matchLatte].map docOfMatch).take 2).map Doc.title) :=
  generation_failure_keeps_sources envLLMTimeout "ราคาลาเต้เท่าไร?" [matchLatte] rfl
    (by simp) (Or.inl ⟨⟨"requests.exceptions.Timeout"⟩, rfl⟩)

/-- C6: for every non-empty query, the reply text is non-empty; and a
blank / whitespace-only generated completion is replaced by the fixed
empty-generation fallback. -/
theorem reply_text_nonempty (env : Env) (msg : String) (_hmsg : msg ≠ "") :
    (process_message env msg).reply ≠ "" ∧
    ∀ ms c, env.query msg = .ok ms → ms ≠ [] →
      env.llm (mkPrompt msg (ms.map docOfMatch)) = .resp 200 (some c) →
      pyStrip c = "" →
      (process_message env msg).reply = emptyGenerationFallback := by
  refine ⟨process_reply_ne_empty env msg, fun ms c hq hne hl hb => ?_⟩
  rw [reply_of_docs env msg ms hq hne, hl]
  have h2 : interpretLLM (LLMHttp.resp 200 (some c)) = pyStrip c := rfl
  rw [h2, hb]
  decide

/-- Witness for C6 at a generator returning only whitespace. -/
theorem reply_text_nonempty_witness :
    (process_message envBlankGen "ราคาลาเต้เท่าไร?").reply ≠ "" ∧
    (process_message envBlankGen "ราคาลาเต้เท่าไร?").reply = emptyGenerationFallback :=
  ⟨(reply_text_nonempty envBlankGen "ราคาลาเต้เท่าไร?" (by decide)).1,
   (reply_text_nonempty envBlankGen "ราคาลาเต้เท่าไร?" (by decide)).2 [matchLatte] "   "
     rfl (by simp) rfl (by decide)⟩

/-- C7: in every successful (non-fallback) reply, `sources` is the list of
titles of the first two retrieved documents, hence never longer than 2
entries even when more documents were retrieved. -/
theorem sources_truncated_to_two (env : Env) (msg : String) (ms : List PMatch)
    (hq : env.query msg = .ok ms) (hne : ms ≠ []) :
    (process_message env msg).sources =
      some (((ms.map docOfMatch).take 2).map Doc.title) ∧
    ∀ l, (process_message env msg).sources = some l → l.length ≤ 2 := by
  have hs := sources_of_docs env msg ms hq hne
  refine ⟨hs, fun l hl => ?_⟩
  rw [hs] at hl
  obtain rfl := Option.some.inj hl
  simp only [List.length_map, List.length_take]
  omega

/-- Witness for C7: three documents retrieved, two titles cited. -/
theorem sources_truncated_to_two_witness :
    (process_message envHealthy "มีเมนูอะไรบ้าง?").sources =
      some ((([matchLatte, matchGreenTea, matchMocha].map docOfMatch).take 2).map Doc.title) ∧
    ((([matchLatte, matchGreenTea, matchMocha].map docOfMatch).take 2).map Doc.title).length ≤ 2 :=
  ⟨(sources_truncated_to_two envHealthy "มีเมนูอะไรบ้าง?"
      [matchLatte, matchGreenTea, matchMocha] rfl (by simp)).1,
   (sources_truncated_to_two envHealthy "มีเมนูอะไรบ้าง?"
      [matchLatte, matchGreenTea, matchMocha] rfl (by simp)).2 _
     (sources_truncated_to_two envHealthy "มีเมนูอะไรบ้าง?"
      [matchLatte, matchGreenTea, matchMocha] rfl (by simp)).1⟩

/-- `Config` (`src/config.py` lines 11-19): the four required secrets as
read from the process environment; `os.getenv` yields `none` when the
variable is unset. -/
structure Config where
  PINECONE_API_KEY : Option String
  OPENROUTER_API_KEY : Option String
  LINE_CHANNEL_ACCESS_TOKEN : Option String
  LINE_CHANNEL_SECRET : Option String
deriving DecidableEq

/-- Python truthiness test `not value` on an optional string: `None` and
the empty string are falsy. -/
def pyFalsy : Option String → Bool
  | none => true
  | some s => s = ""

/-- The `missing` list accumulated by `Config.validate_config`
(`config.py` lines 24-32), in source order. -/
def missingEnvVars (c : Config) : List String :=
  (if pyFalsy c.PINECONE_API_KEY then ["PINECONE_API_KEY"] else []) ++
  (if pyFalsy c.OPENROUTER_API_KEY then ["OPENROUTER_API_KEY"] else []) ++
  (if pyFalsy c.LINE_CHANNEL_ACCESS_TOKEN then ["LINE_CHANNEL_ACCESS_TOKEN"] else []) ++
  (if pyFalsy c.LINE_CHANNEL_SECRET then ["LINE_CHANNEL_SECRET"] else [])

/-- `Config.validate_config` (`config.py` lines 21-37): raise a
`ValueError` naming every missing variable when any secret is falsy,
otherwise return `True`. -/
def validate_config (c : Config) : Except String Bool :=
  if missingEnvVars c = [] then .ok true
  else .error ("Missing environment variables: " ++
    String.intercalate ", " (missingEnvVars c))

/-- Truthiness characterised: falsy means unset or empty. -/
theorem pyFalsy_iff (o : Option String) :
    pyFalsy o = true ↔ (o = none ∨ o = some "") := by
  cases o with
  | none => simp [pyFalsy]
  | some s => simp [pyFalsy]

/-- Membership in the missing list, variable by variable. -/
theorem mem_missingEnvVars (c : Config) (v : String) :
    v ∈ missingEnvVars c ↔
      ((v = "PINECONE_API_KEY" ∧ pyFalsy c.PINECONE_API_KEY = true) ∨
       (v = "OPENROUTER_API_KEY" ∧ pyFalsy c.OPENROUTER_API_KEY = true) ∨
       (v = "LINE_CHANNEL_ACCESS_TOKEN" ∧ pyFalsy c.LINE_CHANNEL_ACCESS_TOKEN = true) ∨
       (v = "LINE_CHANNEL_SECRET" ∧ pyFalsy c.LINE_CHANNEL_SECRET = true)) := by
  cases h1 : pyFalsy c.PINECONE_API_KEY <;>
    cases h2 : pyFalsy c.OPENROUTER_API_KEY <;>
      cases h3 : pyFalsy c.LINE_CHANNEL_ACCESS_TOKEN <;>
        cases h4 : pyFalsy c.LINE_CHANNEL_SECRET <;>
          simp [missingEnvVars, h1, h2, h3, h4]

/-- The missing list is empty iff no secret is falsy. -/
theorem missingEnvVars_ne_nil (c : Config) :
    missingEnvVars c ≠ [] ↔
      (pyFalsy c.PINECONE_API_KEY = true ∨ pyFalsy c.OPENROUTER_API_KEY = true ∨
       pyFalsy c.LINE_CHANNEL_ACCESS_TOKEN = true ∨ pyFalsy c.LINE_CHANNEL_SECRET = true) := by
  cases h1 : pyFalsy c.PINECONE_API_KEY <;>
    cases h2 : pyFalsy c.OPENROUTER_API_KEY <;>
      cases h3 : pyFalsy c.LINE_CHANNEL_ACCESS_TOKEN <;>
        cases h4 : pyFalsy c.LINE_CHANNEL_SECRET <;>
          simp [missingEnvVars, h1, h2, h3, h4]

/-- C8 amended: startup validation fails iff at least one of the four
required secrets is absent **or set to the empty string** (Python
truthiness), and the failure message is built from the list naming every
such variable. -/
theorem validate_config_spec (c : Config) :
    ((∃ m, validate_config c = .error m) ↔
      ((c.PINECONE_API_KEY = none ∨ c.PINECONE_API_KEY = some "") ∨
       (c.OPENROUTER_API_KEY = none ∨ c.OPENROUTER_API_KEY = some "") ∨
       (c.LINE_CHANNEL_ACCESS_TOKEN = none ∨ c.LINE_CHANNEL_ACCESS_TOKEN = some "") ∨
       (c.LINE_CHANNEL_SECRET = none ∨ c.LINE_CHANNEL_SECRET = some ""))) ∧
    (∀ m, validate_config c = .error m →
      m = "Missing environment variables: " ++
        String.intercalate ", " (missingEnvVars c)) ∧
    (∀ v, v ∈ missingEnvVars c ↔
      ((v = "PINECONE_API_KEY" ∧
         (c.PINECONE_API_KEY = none ∨ c.PINECONE_API_KEY = some "")) ∨
       (v = "OPENROUTER_API_KEY" ∧
         (c.OPENROUTER_API_KEY = none ∨ c.OPENROUTER_API_KEY = some "")) ∨
       (v = "LINE_CHANNEL_ACCESS_TOKEN" ∧
         (c.LINE_CHANNEL_ACCESS_TOKEN = none ∨ c.LINE_CHANNEL_ACCESS_TOKEN = some "")) ∨
       (v = "LINE_CHANNEL_SECRET" ∧
         (c.LINE_CHANNEL_SECRET = none ∨ c.LINE_CHANNEL_SECRET = some "")))) := by
  refine ⟨?_, ?_, ?_⟩
  · have key : (∃ m, validate_config c = .error m) ↔ missingEnvVars c ≠ [] := by
      unfold validate_config
      by_cases h : missingEnvVars c = [] <;> simp [h]
    rw [key, missingEnvVars_ne_nil c]
    simp only [pyFalsy_iff]
  · intro m hm
    unfold validate_config at hm
    by_cases h : missingEnvVars c = []
    · simp [h] at hm
    · simp only [h, if_false] at hm
      exact (Except.error.inj hm).symm
  · intro v
    rw [mem_missingEnvVars c v]
    simp only [pyFalsy_iff]

/-- Configuration with one empty and one unset secret. -/
def cfgMissingTwo : Config :=
  { PINECONE_API_KEY := some ""
    OPENROUTER_API_KEY := some "or-key"
    LINE_CHANNEL_ACCESS_TOKEN := none
    LINE_CHANNEL_SECRET := some "secret" }

/-- Witness for the amended C8 at a concrete incomplete configuration. -/
theorem validate_config_spec_witness :
    (∃ m, validate_config cfgMissingTwo = .error m) ∧
    "PINECONE_API_KEY" ∈ missingEnvVars cfgMissingTwo ∧
    "LINE_CHANNEL_ACCESS_TOKEN" ∈ missingEnvVars cfgMissingTwo :=
  ⟨(validate_config_spec cfgMissingTwo).1.mpr (Or.inl (Or.inr rfl)),
   ((validate_config_spec cfgMissingTwo).2.2 "PINECONE_API_KEY").mpr
     (Or.inl ⟨rfl, Or.inr rfl⟩),
   ((validate_config_spec cfgMissingTwo).2.2 "LINE_CHANNEL_ACCESS_TOKEN").mpr
     (Or.inr (Or.inr (Or.inl ⟨rfl, Or.inl rfl⟩)))⟩

/-- Configuration with every secret present, one of them empty. -/
def cfgEmptyKey : Config :=
  { PINECONE_API_KEY := some ""
    OPENROUTER_API_KEY := some "or-key"
    LINE_CHANNEL_ACCESS_TOKEN := some "token"
    LINE_CHANNEL_SECRET := some "secret" }

/-- C8 counterexample: with all four secrets present but
`PINECONE_API_KEY` set to the empty string, no variable is absent, yet
validation fails — refuting the claimed "if and only if ... absent". -/
theorem validate_config_counterexample :
    cfgEmptyKey.PINECONE_API_KEY ≠ none ∧
    cfgEmptyKey.OPENROUTER_API_KEY ≠ none ∧
    cfgEmptyKey.LINE_CHANNEL_ACCESS_TOKEN ≠ none ∧
    cfgEmptyKey.LINE_CHANNEL_SECRET ≠ none ∧
    validate_config cfgEmptyKey =
      .error "Missing environment variables: PINECONE_API_KEY" := by
  refine ⟨by decide, by decide, by decide, by decide, ?_⟩
  rfl

/-- With state-independent service outputs, the reply component of
`process_messageS` does not depend on the starting state. -/
theorem processS_fst_congr {σ : Type} (env : SEnv σ)
    (hq : ∀ s t q, (env.query s q).1 = (env.query t q).1)
    (hl : ∀ s t p, (env.llm s p).1 = (env.llm t p).1)
    (s t : σ) (msg : String) :
    (process_messageS env s msg).1 = (process_messageS env t msg).1 := by
  cases hqt : (env.query t msg).1 with
  | error e =>
      have hqs : (env.query s msg).1 = .error e := (hq s t msg).trans hqt
      simp [process_messageS, search_knowledgeS, hqs, hqt, Except.map]
  | ok ms =>
      have hqs : (env.query s msg).1 = .ok ms := (hq s t msg).trans hqt
      by_cases hemp : (ms.map docOfMatch).isEmpty
      · simp [process_messageS, search_knowledgeS, hqs, hqt, Except.map, hemp]
      · simp only [process_messageS, search_knowledgeS, hqs, hqt, Except.map, hemp,
          generate_responseS, call_openrouterS, Bool.false_eq_true, if_false]
        rw [hl (env.query s msg).2 (env.query t msg).2 (mkPrompt msg (ms.map docOfMatch))]

/-- C9: `process_message` is deterministic — with fixed-output
(state-independent) doubles for the retrieval and generation services,
two successive calls with the same query return identical replies. -/
theorem process_message_deterministic {σ : Type} (env : SEnv σ) (s0 : σ) (msg : String)
    (hq : ∀ s t q, (env.query s q).1 = (env.query t q).1)
    (hl : ∀ s t p, (env.llm s p).1 = (env.llm t p).1) :
    (process_messageS env (process_messageS env s0 msg).2 msg).1 =
      (process_messageS env s0 msg).1 :=
  processS_fst_congr env hq hl _ s0 msg

/-- A stateful but fixed-output double: the state counts calls, the
outputs never depend on it. -/
def envDetCount : SEnv Nat :=
  { query := fun n _ => (.ok [matchLatte], n + 1)
    llm := fun n _ => (.resp 200 (some "ลาเต้ร้อน 45 บาทค่ะ ☕"), n + 1) }

/-- Witness for C9 at the concrete counting double. -/
theorem process_message_deterministic_witness :
    (process_messageS envDetCount
        (process_messageS envDetCount 0 "ราคาลาเต้เท่าไร?").2 "ราคาลาเต้เท่าไร?").1 =
      (process_messageS envDetCount 0 "ราคาลาเต้เท่าไร?").1 :=
  process_message_deterministic envDetCount 0 "ราคาลาเต้เท่าไร?"
    (fun _ _ _ => rfl) (fun _ _ _ => rfl)

/-- C10: both fallback replies carry no `sources` key at all, and the
`sources` key is absent exactly when retrieval raised or found nothing —
only the successful generation path includes it. -/
theorem sources_absent_in_fallbacks (env : Env) (msg : String) :
    ((process_message env msg = pipelineErrorReply ∨
      process_message env msg = noKnowledgeReply) →
      (process_message env msg).sources = none) ∧
    ((process_message env msg).sources = none ↔
      ((∃ e, env.query msg = .error e) ∨ env.query msg = .ok [])) := by
  refine ⟨?_, ?_⟩
  · rintro (h | h) <;> rw [h] <;> rfl
  · cases h : env.query msg with
    | error e =>
        rw [process_message_of_error env msg e h]
        simp [pipelineErrorReply]
    | ok ms =>
        cases ms with
        | nil =>
            rw [process_message_of_empty env msg h]
            simp [noKnowledgeReply]
        | cons a l =>
            rw [sources_of_docs env msg (a :: l) h (by simp)]
            simp

/-- Witness for C10 at a concrete empty-retrieval environment. -/
theorem sources_absent_in_fallbacks_witness :
    (process_message envNoDocs "ข้าวผัดมีไหม?").sources = none :=
  (sources_absent_in_fallbacks envNoDocs "ข้าวผัดมีไหม?").2.mpr (Or.inr rfl)
